import Mathlib

/-!
Shallow embedding of the Prairie-Dog-Run simulation core
(the full game-canvas variant in src/unnamed/part_000, lines 657-2157,
with its constants from src/constants.ts, plus the simpler snake AI of
src/components/GameCanvas.tsx).  Coordinates and velocities are modelled
as rationals; frame timers as integers; the `Math.random()` draws that
feed a step are passed to it as explicit parameters.
-/

namespace PrairieDogRun

/- Constants (src/constants.ts, full variant) -/

def GRAVITY : ℚ := 12/10
def FRICTION : ℚ := 88/100
def AIR_FRICTION : ℚ := 95/100
def JUMP_FORCE : ℚ := -22
def MOVE_SPEED : ℚ := 95/100
def AIR_CONTROL : ℚ := 1/2
def MAX_SPEED : ℚ := 56/10
def TERMINAL_VELOCITY : ℚ := 20
def DASH_SPEED : ℚ := 19
def DASH_DURATION : ℤ := 12
def DASH_COOLDOWN : ℤ := 50
def SHIELD_DURATION : ℤ := 600
def PLAYER_WIDTH : ℚ := 40
def PLAYER_HEIGHT : ℚ := 40

/- Constants local to the game canvas (src/unnamed/part_000) -/

def COYOTE_FRAMES : ℤ := 8
def MAX_LIVES : ℤ := 3
def INVINCIBILITY_DURATION : ℤ := 120
def CRUMBLE_TIME : ℤ := 30

/- Entity model (src/types.ts, full variant) -/

structure Vec2 where
  x : ℚ
  y : ℚ
deriving DecidableEq, Repr

structure Size where
  width : ℚ
  height : ℚ
deriving DecidableEq, Repr

structure Player where
  position : Vec2
  velocity : Vec2
  size : Size
  isGrounded : Bool
  isDead : Bool
  facingRight : Bool
  canDoubleJump : Bool
  isDashing : Bool
deriving DecidableEq, Repr

/-- Anything with a position and a size; the collision helpers are applied
to the player, platforms, obstacles, enemies and collectibles alike. -/
structure BoxLike where
  position : Vec2
  size : Size
deriving DecidableEq, Repr

structure Bounds where
  x : ℚ
  y : ℚ
  w : ℚ
  h : ℚ
deriving DecidableEq, Repr

/-- `getBounds` (src/unnamed/part_000, lines 1022-1029). -/
def getBounds (o : BoxLike) : Bounds :=
  { x := o.position.x, y := o.position.y, w := o.size.width, h := o.size.height }

/-- `getHurtBounds` (src/unnamed/part_000, lines 1032-1040): the hurt box is
the physics box enlarged by a padding of 10, centred. -/
def getHurtBounds (o : BoxLike) : Bounds :=
  let padding : ℚ := 10
  { x := o.position.x - padding / 2
    y := o.position.y - padding / 2
    w := o.size.width + padding
    h := o.size.height + padding }

/-- `checkRectCollision` (src/unnamed/part_000, lines 1042-1056). -/
def checkRectCollision (r1 r2 : BoxLike) (useHurtBox : Bool) : Bool :=
  let b1 := if useHurtBox then getHurtBounds r1 else getBounds r1
  let b2 := if useHurtBox then getHurtBounds r2 else getBounds r2
  decide (b1.x < b2.x + b2.w ∧ b1.x + b1.w > b2.x ∧
          b1.y < b2.y + b2.h ∧ b1.y + b1.h > b2.y)

def Player.box (p : Player) : BoxLike := ⟨p.position, p.size⟩

/- Gameplay state surrounding the player (the refs of the component:
livesRef, invincibilityRef, shieldTimerRef, isGameOverRef, gameOverTimerRef,
lastSafePosRef, shakeTimerRef, shakeStrengthRef). -/

structure GameState where
  player : Player
  lives : ℤ
  invincibility : ℤ
  shieldTimer : ℤ
  isGameOver : Bool
  gameOverTimer : ℤ
  lastSafePos : Vec2
  shakeTimer : ℤ
  shakeStrength : ℚ
deriving DecidableEq, Repr

/-- `handlePlayerDamage` (src/unnamed/part_000, lines 1075-1093).
Sound playback (`playDeath`) is a fire-and-forget cue and is not state. -/
def handlePlayerDamage (s : GameState) : GameState :=
  if s.invincibility > 0 ∨ s.isGameOver ∨ s.shieldTimer > 0 ∨ s.player.isDashing then s
  else
    let lives := s.lives - 1
    let s := { s with lives := lives, shakeTimer := 20, shakeStrength := 10 }
    if lives ≤ 0 then
      { s with isGameOver := true
               player := { s.player with velocity := { s.player.velocity with y := -15 } } }
    else
      { s with player := { s.player with position := s.lastSafePos, velocity := ⟨0, 0⟩ }
               invincibility := INVINCIBILITY_DURATION }

/-- One tick of the terminal game-over sequence (src/unnamed/part_000,
lines 1105-1121): gravity-only fall, game-over timer increment, shake decay.
No collision checks appear in this branch. -/
def gameOverStep (s : GameState) : GameState :=
  let vy := s.player.velocity.y + GRAVITY
  { s with
    player := { s.player with
                velocity := { s.player.velocity with y := vy }
                position := { s.player.position with y := s.player.position.y + vy } }
    gameOverTimer := s.gameOverTimer + 1
    shakeTimer := if s.shakeTimer > 0 then s.shakeTimer - 1 else s.shakeTimer }

/-- The check `if (gameOverTimerRef.current > 100) { onGameOver(false); ... }`
performed right after the increment of `gameOverStep` (line 1114): whether the
tick signals final game-over to the caller. -/
def gameOverSignal (s : GameState) : Bool := decide (s.gameOverTimer > 100)

/- Enemy model (full variant loader, src/unnamed/part_000, lines 925-972).
The loader always sets `velocity`, `initialPosition` and a `variant`;
`patrolRange` is kept optional to mirror the `if (enemy.patrolRange)`
guards of the AI code. -/

inductive EnemyKind
  | snake
  | hawk
  | bat
  | bug
  | mole
deriving DecidableEq, Repr

inductive Variant
  | default
  | alt
deriving DecidableEq, Repr

inductive AIState
  | idle
  | patrol
  | angry
  | hover
  | preparing
  | dive
  | returning
  | sleeping
  | hidden
  | rising
  | active
  | lowering
deriving DecidableEq, Repr

structure PatrolRange where
  min : ℚ
  max : ℚ
deriving DecidableEq, Repr

structure Enemy where
  position : Vec2
  size : Size
  subtype : EnemyKind
  velocity : Vec2
  initialPosition : Vec2
  patrolRange : Option PatrolRange
  aiState : AIState
  timer : ℚ
  variant : Variant
  isBroken : Bool
deriving DecidableEq, Repr

def Enemy.box (e : Enemy) : BoxLike := ⟨e.position, e.size⟩

/-- Per-tick snake AI of the full variant (src/unnamed/part_000,
lines 1388-1433).  `playerPos` is the player position read by the AI;
`randTurn` is the outcome of the `Math.random() < 0.005` random-turn draw.
In the non-angry (patrol) branch the x position advances by `velocity.x`
and at a patrol bound only the velocity is negated; in the angry branch
the position advances and at a bound the velocity is zeroed and the state
reverts to idle.  Neither branch clamps the position itself. -/
def snakeUpdate (playerPos : Vec2) (randTurn : Bool) (e : Enemy) : Enemy :=
  if e.aiState ≠ .angry then
    -- Normal Patrol
    let e := { e with position := { e.position with x := e.position.x + e.velocity.x } }
    let e :=
      match e.patrolRange with
      | some r =>
        let e :=
          if e.position.x ≤ r.min ∨ e.position.x ≥ r.max then
            { e with velocity := { e.velocity with x := -e.velocity.x } }
          else e
        -- Random turn
        if randTurn then { e with velocity := { e.velocity with x := -e.velocity.x } } else e
      | none => e
    -- Check for player to Charge
    if |playerPos.y - e.position.y| < 50 ∧ |playerPos.x - e.position.x| < 250 then
      let dir : ℚ := if playerPos.x > e.position.x then 1 else -1
      { e with aiState := .angry, velocity := { e.velocity with x := 6 * dir } }
    else e
  else
    -- Angry State
    let e := { e with position := { e.position with x := e.position.x + e.velocity.x } }
    let e :=
      match e.patrolRange with
      | some r =>
        if e.position.x ≤ r.min ∨ e.position.x ≥ r.max then
          { e with velocity := { e.velocity with x := 0 }, aiState := .idle }
        else e
      | none => e
    -- Jump variant if player jumps over
    let e :=
      if e.variant = .alt ∧ playerPos.y < e.position.y - 50 ∧
         |playerPos.x - e.position.x| < 50 ∧ e.position.y ≥ e.initialPosition.y then
        { e with velocity := { e.velocity with y := -10 } }
      else e
    -- Gravity for jumping snake
    let e := { e with position := { e.position with y := e.position.y + e.velocity.y } }
    if e.velocity.y < 0 ∨ e.position.y < e.initialPosition.y then
      { e with velocity := { e.velocity with y := e.velocity.y + 1/2 } }
    else
      { e with velocity := { e.velocity with y := 0 }
               position := { e.position with y := e.initialPosition.y } }

/-- Per-tick snake AI of the simpler variant (src/components/GameCanvas.tsx,
lines 354-363; identically src/unnamed/part_000, lines 237-248): the patrol
position is clamped to the patrol bound that was crossed and the speed is
set to move back into the range. -/
def snakeUpdateSimple (e : Enemy) : Enemy :=
  if e.subtype = .snake ∧ e.aiState = .patrol then
    match e.patrolRange with
    | some r =>
      let e := { e with position := { e.position with x := e.position.x + e.velocity.x } }
      if e.position.x ≤ r.min then
        { e with position := { e.position with x := r.min }
                 velocity := { e.velocity with x := |e.velocity.x| } }
      else if e.position.x ≥ r.max then
        { e with position := { e.position with x := r.max }
                 velocity := { e.velocity with x := -|e.velocity.x| } }
      else e
    | none => e
  else e

/- Solid environment objects: platforms and obstacles (loader lines 904-922). -/

inductive ObjType
  | platform
  | obstacle
deriving DecidableEq, Repr

inductive EnvKind
  | normal
  | crumble
  | bouncy
  | crate
deriving DecidableEq, Repr

structure EnvObj where
  position : Vec2
  size : Size
  otype : ObjType
  subtype : EnvKind
  isBroken : Bool
  timer : ℤ
deriving DecidableEq, Repr

def EnvObj.box (o : EnvObj) : BoxLike := ⟨o.position, o.size⟩

/-- Result of resolving the player against one solid object: the updated
player and object, whether this object set `groundedThisFrame`, and the
new `lastSafePosRef` value when a safe (non-crumble) landing happened. -/
structure EnvResult where
  player : Player
  obj : EnvObj
  grounded : Bool
  newSafePos : Option Vec2
deriving DecidableEq, Repr

/-- `checkEnvironmentCollision` (src/unnamed/part_000, lines 1250-1317).
`crumbleShake` and `shakeOffset` model the `Math.random() > 0.5` draw and
the `(Math.random() - 0.5) * 2` offset of the crumble-platform jitter.
Particle emission (`spawnDebris`) and sound cues are visual-only effects
with no bearing on the simulation state modelled here. -/
def checkEnvironmentCollision (player : Player) (obj : EnvObj)
    (crumbleShake : Bool) (shakeOffset : ℚ) : EnvResult :=
  if obj.isBroken then ⟨player, obj, false, none⟩
  else
    let b := getBounds obj.box
    -- Predict previous position to determine collision side
    let prevY := player.position.y - player.velocity.y
    let prevX := player.position.x - player.velocity.x
    if checkRectCollision player.box obj.box false then
      -- Top Collision (Landing)
      if prevY + player.size.height ≤ b.y ∧ player.velocity.y ≥ 0 then
        if obj.subtype = .bouncy then
          -- Bouncy Platform Logic: super bounce, stay airborne, restore double jump
          ⟨{ player with
               position := { player.position with y := b.y - player.size.height }
               velocity := { player.velocity with y := JUMP_FORCE * (14/10) }
               isGrounded := false
               canDoubleJump := true },
            obj, false, none⟩
        else
          let player := { player with
                          position := { player.position with y := b.y - player.size.height }
                          velocity := { player.velocity with y := 0 }
                          isGrounded := true }
          if obj.subtype = .crumble then
            -- Handle Crumble: `obj.timer = (obj.timer || CRUMBLE_TIME) - 1`
            let t := (if obj.timer = 0 then CRUMBLE_TIME else obj.timer) - 1
            let obj := { obj with
                         timer := t
                         position := { obj.position with
                                       x := obj.position.x +
                                             (if crumbleShake then shakeOffset else 0) } }
            if t ≤ 0 then ⟨player, { obj with isBroken := true }, true, none⟩
            else ⟨player, obj, true, none⟩
          else
            ⟨player, obj, true, some ⟨obj.position.x, obj.position.y - 40⟩⟩
      -- Bottom Collision (Bonk)
      else if prevY ≥ b.y + b.h ∧ player.velocity.y < 0 then
        let player := { player with
                        position := { player.position with y := b.y + b.h }
                        velocity := { player.velocity with y := 0 } }
        if obj.otype = .obstacle ∧ obj.subtype = .crate then
          ⟨player, { obj with isBroken := true }, false, none⟩
        else ⟨player, obj, false, none⟩
      -- Side Collisions
      else if prevX + player.size.width ≤ b.x then
        ⟨{ player with
             position := { player.position with x := b.x - player.size.width }
             velocity := { player.velocity with x := 0 } },
          obj, false, none⟩
      else if prevX ≥ b.x + b.w then
        ⟨{ player with
             position := { player.position with x := b.x + b.w }
             velocity := { player.velocity with x := 0 } },
          obj, false, none⟩
      else ⟨player, obj, false, none⟩
    else ⟨player, obj, false, none⟩

/-- The obstacle pass of the loop (src/unnamed/part_000, lines 1320-1331):
a crate touched (hurt-box test) while the player is shielded or dashing
breaks instantly; otherwise normal environment collision applies. -/
def obstacleStep (shieldTimer : ℤ) (player : Player) (obj : EnvObj)
    (crumbleShake : Bool) (shakeOffset : ℚ) : EnvResult :=
  if obj.isBroken then ⟨player, obj, false, none⟩
  else if (shieldTimer > 0 ∨ player.isDashing) ∧ checkRectCollision player.box obj.box true then
    ⟨player, { obj with isBroken := true }, false, none⟩
  else checkEnvironmentCollision player obj crumbleShake shakeOffset

/-- Post-collision grounding finalisation (src/unnamed/part_000,
lines 1333-1337): `player.isGrounded = groundedThisFrame` and, when
grounded, the coyote counter is refilled and the double jump re-armed. -/
def finalizeGrounding (player : Player) (coyoteFrames : ℤ) (groundedThisFrame : Bool) :
    Player × ℤ :=
  let p := { player with isGrounded := groundedThisFrame }
  if groundedThisFrame then ({ p with canDoubleJump := true }, COYOTE_FRAMES)
  else (p, coyoteFrames)

/- Collectibles (loader lines 975-981: subtype is `c.type || 'seed'`). -/

inductive CollectKind
  | seed
  | shield
deriving DecidableEq, Repr

structure Collectible where
  position : Vec2
  size : Size
  subtype : CollectKind
  isBroken : Bool
deriving DecidableEq, Repr

def Collectible.box (c : Collectible) : BoxLike := ⟨c.position, c.size⟩

/-- One collectible of the collectibles pass (src/unnamed/part_000,
lines 1357-1374).  The returned Bool is whether the score callback
`onCollect` fired this tick. -/
def collectibleStep (st : GameState) (c : Collectible) :
    Collectible × GameState × Bool :=
  if c.isBroken then (c, st, false)
  else if checkRectCollision st.player.box c.box true then
    let c := { c with isBroken := true }
    match c.subtype with
    | .shield =>
        (c, { st with shieldTimer := SHIELD_DURATION, shakeTimer := 20, shakeStrength := 5 },
         false)
    | .seed =>
        (c, { st with shakeTimer := 5, shakeStrength := 2 }, true)
  else (c, st, false)

/-- The damage check of the enemies pass (src/unnamed/part_000,
lines 1384-1386 and 1574-1591): broken enemies are skipped, hidden moles
never hurt, and on a hurt-box overlap the enemy is destroyed when the
player is shielded or dashing (dashing additionally sets a camera shake),
otherwise `handlePlayerDamage` runs. -/
def enemyDamageCheck (st : GameState) (e : Enemy) : Enemy × GameState :=
  if e.isBroken then (e, st)
  else if e.subtype = .mole ∧ e.aiState = .hidden then (e, st)
  else if checkRectCollision st.player.box e.box true then
    if st.shieldTimer > 0 ∨ st.player.isDashing then
      ({ e with isBroken := true },
       if st.player.isDashing then { st with shakeTimer := 10, shakeStrength := 5 } else st)
    else (e, handlePlayerDamage st)
  else (e, st)

/- Dash state machine (src/unnamed/part_000, line 1130 and lines 1141-1183). -/

structure DashState where
  isDashing : Bool
  facingRight : Bool
  vx : ℚ
  vy : ℚ
  dashTimer : ℤ
  dashCooldown : ℤ
  shakeTimer : ℤ
  shakeStrength : ℚ
deriving DecidableEq, Repr

/-- `Math.sign`. -/
def signQ (q : ℚ) : ℚ := if q > 0 then 1 else if q < 0 then -1 else 0

/-- The cooldown decrement of the shared effects-timer block
(src/unnamed/part_000, line 1130): `if (dashCooldownRef.current > 0)
dashCooldownRef.current--`, executed every normal tick regardless of dash
state. -/
def dashCooldownTick (s : DashState) : DashState :=
  { s with dashCooldown := if s.dashCooldown > 0 then s.dashCooldown - 1
                           else s.dashCooldown }

/-- Dash activation (src/unnamed/part_000, lines 1141-1156): gated on the
dash-pressed edge, a non-positive cooldown, and not already dashing; on
activation the duration timer and cooldown are reloaded, the velocity is
set along the facing direction, gravity is suspended, and a small camera
shake fires.  Particles and sound are visual only. -/
def dashActivation (pressed : Bool) (s : DashState) : DashState :=
  if pressed ∧ s.dashCooldown ≤ 0 ∧ ¬s.isDashing then
    let dir : ℚ := if s.facingRight then 1 else -1
    { s with isDashing := true
             dashTimer := DASH_DURATION
             dashCooldown := DASH_COOLDOWN
             vx := dir * DASH_SPEED
             vy := 0
             shakeTimer := 5
             shakeStrength := 2 }
  else s

/-- Dash maintenance (src/unnamed/part_000, lines 1158-1183): while
dashing the duration timer is decremented and the dash velocity is held;
on expiry the dash flag clears and the exit speed is clamped to
`MAX_SPEED`. -/
def dashMaintain (s : DashState) : DashState :=
  if s.isDashing then
    let s := { s with dashTimer := s.dashTimer - 1 }
    let dir : ℚ := if s.facingRight then 1 else -1
    let s := { s with vx := dir * DASH_SPEED, vy := 0 }
    if s.dashTimer ≤ 0 then
      { s with isDashing := false, vx := signQ s.vx * MAX_SPEED }
    else s
  else s

/-- The dash-relevant part of one tick, in source order: the shared
cooldown decrement, then activation, then maintenance.  The non-dashing
else-branch (normal movement) touches neither timer. -/
def dashTick (pressed : Bool) (s : DashState) : DashState :=
  dashMaintain (dashActivation pressed (dashCooldownTick s))

/- Death plane (src/unnamed/part_000, lines 1339-1355). -/

/-- A platform record of the level description (the `level.platforms` list). -/
structure PlatformDef where
  x : ℚ
  y : ℚ
  w : ℚ
  h : ℚ
deriving DecidableEq, Repr

/-- `lowestY` (lines 1342-1345): the viewport height when no platforms
exist, otherwise `Math.max(...level.platforms.map(p => p.y))`. -/
def lowestY (platforms : List PlatformDef) (height : ℚ) : ℚ :=
  match platforms with
  | [] => height
  | p :: ps => ps.foldl (fun acc q => max acc q.y) p.y

/-- `deathY = lowestY + 400` (line 1346). -/
def deathY (platforms : List PlatformDef) (height : ℚ) : ℚ :=
  lowestY platforms height + 400

/-- The death-floor check (lines 1348-1355): past the death plane, unless a
game-over sequence is already in progress, lives are forced to zero, the
terminal sequence flag is set, and the visual death hop is applied. -/
def deathFloorCheck (dY : ℚ) (st : GameState) : GameState :=
  if st.player.position.y > dY then
    if ¬st.isGameOver then
      { st with lives := 0
                isGameOver := true
                player := { st.player with
                            velocity := { st.player.velocity with y := -15 } } }
    else st
  else st

/-- The platform draw pass (src/unnamed/part_000, lines 1720-1721) skips
broken platforms: only these survive to be painted. -/
def renderedPlatforms (ps : List EnvObj) : List EnvObj :=
  ps.filter (fun p => ¬p.isBroken)

/- Scenario drivers (auxiliary inputs used to exercise the embedded
operations; not themselves transcriptions of source code). -/

/-- A player standing on `obj` at the start of the collision phase of a
tick: on the previous tick its bottom rested flush on the platform top,
and this tick gravity was applied from rest and integrated once, exactly
as the update loop produces for a stationary standing player. -/
def standingPlayer (obj : EnvObj) : Player :=
  { position := ⟨obj.position.x, obj.position.y - PLAYER_HEIGHT + GRAVITY⟩
    velocity := ⟨0, GRAVITY⟩
    size := ⟨PLAYER_WIDTH, PLAYER_HEIGHT⟩
    isGrounded := true
    isDead := false
    facingRight := true
    canDoubleJump := true
    isDashing := false }

/-- One standing tick on a platform: the object as left by resolving the
standing player against it (no crumble jitter drawn). -/
def crumbleStandTick (obj : EnvObj) : EnvObj :=
  (checkEnvironmentCollision (standingPlayer obj) obj false 0).obj

/-- A charging (angry) snake one step inside its patrol range, moving
toward the lower bound faster than the remaining distance. -/
def angrySnakeAtEdge : Enemy :=
  { position := ⟨3, 100⟩
    size := ⟨40, 40⟩
    subtype := .snake
    velocity := ⟨-6, 0⟩
    initialPosition := ⟨50, 100⟩
    patrolRange := some ⟨0, 100⟩
    aiState := .angry
    timer := 0
    variant := .default
    isBroken := false }

/-- A player overlapping an enemy while invincible (no shield, no dash). -/
def invinciblePlayer : Player :=
  { position := ⟨0, 0⟩
    velocity := ⟨0, 0⟩
    size := ⟨40, 40⟩
    isGrounded := true
    isDead := false
    facingRight := true
    canDoubleJump := true
    isDashing := false }

def invincibleState : GameState :=
  { player := invinciblePlayer
    lives := 3
    invincibility := 50
    shieldTimer := 0
    isGameOver := false
    gameOverTimer := 0
    lastSafePos := ⟨50, 400⟩
    shakeTimer := 0
    shakeStrength := 0 }

def overlappingSnake : Enemy :=
  { position := ⟨10, 10⟩
    size := ⟨40, 40⟩
    subtype := .snake
    velocity := ⟨2, 0⟩
    initialPosition := ⟨10, 10⟩
    patrolRange := some ⟨0, 100⟩
    aiState := .patrol
    timer := 0
    variant := .default
    isBroken := false }

/-- A vulnerable state: no invincibility, shield or dash, lives left. -/
def vulnerableState : GameState :=
  { player := invinciblePlayer
    lives := 3
    invincibility := 0
    shieldTimer := 0
    isGameOver := false
    gameOverTimer := 0
    lastSafePos := ⟨50, 400⟩
    shakeTimer := 0
    shakeStrength := 0 }

/-- A dashing state: dash flag set, no shield, no invincibility. -/
def dashingState : GameState :=
  { player := { invinciblePlayer with isDashing := true }
    lives := 3
    invincibility := 0
    shieldTimer := 0
    isGameOver := false
    gameOverTimer := 0
    lastSafePos := ⟨50, 400⟩
    shakeTimer := 0
    shakeStrength := 0 }

/-- A concrete crumble platform seeded with `CRUMBLE_TIME`, as the loader
builds it. -/
def crumblePlatform : EnvObj :=
  { position := ⟨100, 300⟩
    size := ⟨200, 20⟩
    otype := .platform
    subtype := .crumble
    isBroken := false
    timer := CRUMBLE_TIME }

/-- A vulnerable state whose player has fallen far below the world. -/
def vulnerableState2 : GameState :=
  { player := { invinciblePlayer with position := ⟨50, 1000⟩ }
    lives := 3
    invincibility := 0
    shieldTimer := 0
    isGameOver := false
    gameOverTimer := 0
    lastSafePos := ⟨50, 400⟩
    shakeTimer := 0
    shakeStrength := 0 }

/- ------------------------------------------------------------------ -/
/- Theorems                                                            -/
/- ------------------------------------------------------------------ -/

/-- C6: landing on top of a bouncy platform (previous bottom at or above
the platform top, vertical velocity non-negative) sets the player's
vertical velocity to the amplified bounce impulse `JUMP_FORCE * 1.4`
(a negative value strictly below, hence distinct from, the normal jump
impulse), leaves the player airborne (`isGrounded = false`, and the
object does not set `groundedThisFrame`), and restores the double-jump
charge. -/
theorem bouncy_platform_launch
    (player : Player) (obj : EnvObj) (crumbleShake : Bool) (shakeOffset : ℚ)
    (hb : obj.isBroken = false)
    (hsub : obj.subtype = .bouncy)
    (hcol : checkRectCollision player.box obj.box false = true)
    (htop : player.position.y - player.velocity.y + player.size.height ≤ obj.position.y)
    (hvy : 0 ≤ player.velocity.y) :
    (checkEnvironmentCollision player obj crumbleShake shakeOffset).player.velocity.y
        = JUMP_FORCE * (14/10) ∧
    (checkEnvironmentCollision player obj crumbleShake shakeOffset).player.isGrounded = false ∧
    (checkEnvironmentCollision player obj crumbleShake shakeOffset).player.canDoubleJump = true ∧
    (checkEnvironmentCollision player obj crumbleShake shakeOffset).grounded = false ∧
    (checkEnvironmentCollision player obj crumbleShake shakeOffset).player.position.y
        = obj.position.y - player.size.height ∧
    JUMP_FORCE * (14/10) < JUMP_FORCE ∧ JUMP_FORCE * (14/10) ≠ JUMP_FORCE := by
  have harith : JUMP_FORCE * (14/10) < JUMP_FORCE ∧ JUMP_FORCE * (14/10) ≠ JUMP_FORCE := by
    norm_num [JUMP_FORCE]
  simp only [Player.box, EnvObj.box] at hcol
  simp only [checkEnvironmentCollision, hb, Bool.false_eq_true, if_false, getBounds,
    EnvObj.box, Player.box, hcol, if_true, hsub, ge_iff_le]
  simp only [htop, hvy, and_self, if_true, eq_self_iff_true, reduceIte]
  exact ⟨trivial, trivial, trivial, trivial, trivial, harith⟩

/-- C6 witness: a concrete falling player (velocity 5 downward, bottom flush
with the platform top on the previous tick) landing on a concrete bouncy
platform. -/
theorem bouncy_platform_launch_witness :
    (checkEnvironmentCollision
        { position := ⟨100, 265⟩, velocity := ⟨0, 5⟩, size := ⟨40, 40⟩,
          isGrounded := false, isDead := false, facingRight := true,
          canDoubleJump := false, isDashing := false }
        { position := ⟨100, 300⟩, size := ⟨200, 20⟩, otype := .platform,
          subtype := .bouncy, isBroken := false, timer := 0 }
        false 0).player.velocity.y = JUMP_FORCE * (14/10) := by
  have h := bouncy_platform_launch
        { position := ⟨100, 265⟩, velocity := ⟨0, 5⟩, size := ⟨40, 40⟩,
          isGrounded := false, isDead := false, facingRight := true,
          canDoubleJump := false, isDashing := false }
        { position := ⟨100, 300⟩, size := ⟨200, 20⟩, otype := .platform,
          subtype := .bouncy, isBroken := false, timer := 0 }
        false 0 rfl rfl
        (by norm_num [checkRectCollision, getBounds, Player.box, EnvObj.box])
        (by norm_num) (by norm_num)
  exact h.1


/-- C10: on a tick in which the player lands on top of a non-bouncy solid
object (previous bottom at or above the object top, vertical velocity
non-negative), the object sets `groundedThisFrame`, and the post-collision
finalisation then re-arms the double jump and refills the coyote-frame
counter — no jump input is involved anywhere in this path. -/
theorem grounding_restores_double_jump
    (player : Player) (obj : EnvObj) (crumbleShake : Bool) (shakeOffset : ℚ)
    (coyote : ℤ)
    (hb : obj.isBroken = false)
    (hsub : obj.subtype ≠ .bouncy)
    (hcol : checkRectCollision player.box obj.box false = true)
    (htop : player.position.y - player.velocity.y + player.size.height ≤ obj.position.y)
    (hvy : 0 ≤ player.velocity.y) :
    (checkEnvironmentCollision player obj crumbleShake shakeOffset).grounded = true ∧
    (finalizeGrounding (checkEnvironmentCollision player obj crumbleShake shakeOffset).player
        coyote
        (checkEnvironmentCollision player obj crumbleShake shakeOffset).grounded).1.canDoubleJump
      = true ∧
    (finalizeGrounding (checkEnvironmentCollision player obj crumbleShake shakeOffset).player
        coyote
        (checkEnvironmentCollision player obj crumbleShake shakeOffset).grounded).1.isGrounded
      = true ∧
    (finalizeGrounding (checkEnvironmentCollision player obj crumbleShake shakeOffset).player
        coyote
        (checkEnvironmentCollision player obj crumbleShake shakeOffset).grounded).2
      = COYOTE_FRAMES := by
  have hg : (checkEnvironmentCollision player obj crumbleShake shakeOffset).grounded = true := by
    simp only [Player.box, EnvObj.box] at hcol
    simp only [checkEnvironmentCollision, hb, Bool.false_eq_true, if_false, getBounds,
      EnvObj.box, Player.box, hcol, if_true, ge_iff_le, hsub]
    simp only [htop, hvy, and_self, if_true, eq_self_iff_true, reduceIte]
    split_ifs <;> rfl
  refine ⟨hg, ?_, ?_, ?_⟩ <;> rw [hg] <;> simp [finalizeGrounding]

/-- C10 witness: a concrete player landing on a concrete normal platform
restores the double jump and refills the coyote counter. -/
theorem grounding_restores_double_jump_witness :
    (finalizeGrounding (checkEnvironmentCollision
        { position := ⟨100, 265⟩, velocity := ⟨0, 5⟩, size := ⟨40, 40⟩,
          isGrounded := false, isDead := false, facingRight := true,
          canDoubleJump := false, isDashing := false }
        { position := ⟨100, 300⟩, size := ⟨200, 20⟩, otype := .platform,
          subtype := .normal, isBroken := false, timer := 0 }
        false 0).player 3
        (checkEnvironmentCollision
        { position := ⟨100, 265⟩, velocity := ⟨0, 5⟩, size := ⟨40, 40⟩,
          isGrounded := false, isDead := false, facingRight := true,
          canDoubleJump := false, isDashing := false }
        { position := ⟨100, 300⟩, size := ⟨200, 20⟩, otype := .platform,
          subtype := .normal, isBroken := false, timer := 0 }
        false 0).grounded).1.canDoubleJump = true := by
  have h := grounding_restores_double_jump
        { position := ⟨100, 265⟩, velocity := ⟨0, 5⟩, size := ⟨40, 40⟩,
          isGrounded := false, isDead := false, facingRight := true,
          canDoubleJump := false, isDashing := false }
        { position := ⟨100, 300⟩, size := ⟨200, 20⟩, otype := .platform,
          subtype := .normal, isBroken := false, timer := 0 }
        false 0 3 rfl (by simp)
        (by norm_num [checkRectCollision, getBounds, Player.box, EnvObj.box])
        (by norm_num) (by norm_num)
  exact h.2.1


/-- C8: overlapping a not-yet-consumed shield collectible (hurt-box test)
removes it, sets the shield timer to `SHIELD_DURATION`, and does not fire
the score callback; the score callback fires only for seed collectibles,
and an already-consumed collectible is never processed again. -/
theorem shield_collectible_pickup
    (st : GameState) (c : Collectible)
    (hb : c.isBroken = false)
    (hcol : checkRectCollision st.player.box c.box true = true)
    (hsub : c.subtype = .shield) :
    (collectibleStep st c).1.isBroken = true ∧
    (collectibleStep st c).2.1.shieldTimer = SHIELD_DURATION ∧
    (collectibleStep st c).2.2 = false ∧
    (∀ (st2 : GameState) (c2 : Collectible),
      (collectibleStep st2 c2).2.2 = true → c2.subtype = .seed) ∧
    (∀ (st2 : GameState) (c2 : Collectible),
      c2.isBroken = true → collectibleStep st2 c2 = (c2, st2, false)) := by
  have hOnlySeed : ∀ (st2 : GameState) (c2 : Collectible),
      (collectibleStep st2 c2).2.2 = true → c2.subtype = .seed := by
    intro st2 c2 h
    by_cases hbk : c2.isBroken = true
    · simp [collectibleStep, hbk] at h
    · by_cases hcl : checkRectCollision st2.player.box c2.box true = true
      · cases hsub2 : c2.subtype
        · rfl
        · exfalso
          simp [collectibleStep, hbk, hcl, hsub2] at h
      · simp [collectibleStep, hbk, hcl] at h
  have hNoOp : ∀ (st2 : GameState) (c2 : Collectible),
      c2.isBroken = true → collectibleStep st2 c2 = (c2, st2, false) := by
    intro st2 c2 h
    simp [collectibleStep, h]
  refine ⟨?_, ?_, ?_, hOnlySeed, hNoOp⟩ <;>
    simp [collectibleStep, hb, hcol, hsub]

/-- C8 witness: a concrete player overlapping a concrete shield collectible. -/
theorem shield_collectible_pickup_witness :
    (collectibleStep invincibleState
      { position := ⟨10, 10⟩, size := ⟨30, 30⟩, subtype := .shield,
        isBroken := false }).2.1.shieldTimer = SHIELD_DURATION := by
  have h := shield_collectible_pickup invincibleState
      { position := ⟨10, 10⟩, size := ⟨30, 30⟩, subtype := .shield,
        isBroken := false }
      rfl
      (by norm_num [checkRectCollision, getHurtBounds, Player.box, Collectible.box,
        invincibleState, invinciblePlayer])
      rfl
  exact h.2.1

/-- C9: the `isBroken` flag is monotonic and excluding.  Each modelled
operation skips a broken object entirely, leaving the object, the player
and the gameplay state unchanged and firing no callback; the snake AI
never touches the flag; and broken platforms are excluded from the render
pass. -/
theorem isBroken_monotonic_excluding :
    (∀ (p : Player) (obj : EnvObj) (cs : Bool) (so : ℚ), obj.isBroken = true →
        checkEnvironmentCollision p obj cs so = ⟨p, obj, false, none⟩) ∧
    (∀ (sh : ℤ) (p : Player) (obj : EnvObj) (cs : Bool) (so : ℚ), obj.isBroken = true →
        obstacleStep sh p obj cs so = ⟨p, obj, false, none⟩) ∧
    (∀ (st : GameState) (c : Collectible), c.isBroken = true →
        collectibleStep st c = (c, st, false)) ∧
    (∀ (st : GameState) (e : Enemy), e.isBroken = true →
        enemyDamageCheck st e = (e, st)) ∧
    (∀ (pp : Vec2) (rt : Bool) (e : Enemy), (snakeUpdate pp rt e).isBroken = e.isBroken) ∧
    (∀ (ps : List EnvObj) (obj : EnvObj), obj.isBroken = true →
        obj ∉ renderedPlatforms ps) := by
  refine ⟨?_, ?_, ?_, ?_, ?_, ?_⟩
  · intro p obj cs so h
    simp [checkEnvironmentCollision, h]
  · intro sh p obj cs so h
    simp [obstacleStep, h]
  · intro st c h
    simp [collectibleStep, h]
  · intro st e h
    simp [enemyDamageCheck, h]
  · intro pp rt e
    rcases hpr : e.patrolRange with _ | r <;>
      simp only [snakeUpdate, hpr] <;> split_ifs <;> rfl
  · intro ps obj h
    simp [renderedPlatforms, List.mem_filter, h]

/-- C9 witness: a concrete broken platform is skipped by collision
resolution unchanged. -/
theorem isBroken_monotonic_excluding_witness :
    checkEnvironmentCollision invinciblePlayer
      { position := ⟨100, 300⟩, size := ⟨200, 20⟩, otype := .platform,
        subtype := .normal, isBroken := true, timer := 0 } false 0
      = ⟨invinciblePlayer,
         { position := ⟨100, 300⟩, size := ⟨200, 20⟩, otype := .platform,
           subtype := .normal, isBroken := true, timer := 0 }, false, none⟩ :=
  isBroken_monotonic_excluding.1 invinciblePlayer
    { position := ⟨100, 300⟩, size := ⟨200, 20⟩, otype := .platform,
      subtype := .normal, isBroken := true, timer := 0 } false 0 rfl


/-- Helper: the terminal game-over timer advances by exactly one per tick. -/
theorem gameOverStep_timer_iterate (s : GameState) :
    ∀ k : ℕ, ((gameOverStep^[k]) s).gameOverTimer = s.gameOverTimer + k := by
  intro k
  induction k generalizing s with
  | zero => simp
  | succ k ih =>
      rw [Function.iterate_succ_apply]
      rw [ih (gameOverStep s)]
      simp only [gameOverStep]
      push_cast
      ring

/-- C2: a hit while invincibility, shield or dash is active changes no
state.  Otherwise (outside the game-over sequence) exactly one life is
lost; with lives remaining the player is teleported to the last safe
position with zero velocity and the invincibility counter is set to
`INVINCIBILITY_DURATION`; at zero lives the terminal sequence flag is set.
The terminal sequence is gravity-only (x position and x velocity frozen,
vertical velocity integrating gravity, no collision response) and signals
final game-over exactly on ticks past the fixed threshold of 100. -/
theorem damage_and_game_over (s : GameState) :
    ((0 < s.invincibility ∨ 0 < s.shieldTimer ∨ s.player.isDashing = true) →
      handlePlayerDamage s = s) ∧
    (s.invincibility ≤ 0 → s.shieldTimer ≤ 0 → s.player.isDashing = false →
     s.isGameOver = false →
      (handlePlayerDamage s).lives = s.lives - 1 ∧
      (0 < s.lives - 1 →
        (handlePlayerDamage s).player.position = s.lastSafePos ∧
        (handlePlayerDamage s).player.velocity = ⟨0, 0⟩ ∧
        (handlePlayerDamage s).invincibility = INVINCIBILITY_DURATION ∧
        (handlePlayerDamage s).isGameOver = false) ∧
      (s.lives - 1 ≤ 0 → (handlePlayerDamage s).isGameOver = true)) ∧
    (∀ k : ℕ, ((gameOverStep^[k]) s).gameOverTimer = s.gameOverTimer + k) ∧
    (s.gameOverTimer = 0 →
      ∀ k : ℕ, (gameOverSignal ((gameOverStep^[k]) s) = true ↔ 100 < k)) ∧
    ((gameOverStep s).player.position.x = s.player.position.x ∧
     (gameOverStep s).player.velocity.x = s.player.velocity.x ∧
     (gameOverStep s).player.velocity.y = s.player.velocity.y + GRAVITY ∧
     (gameOverStep s).player.position.y
        = s.player.position.y + (s.player.velocity.y + GRAVITY)) := by
  refine ⟨?_, ?_, gameOverStep_timer_iterate s, ?_, ?_⟩
  · intro h
    rcases h with h | h | h <;> simp [handlePlayerDamage, h]
  · intro hinv hsh hdash hgo
    have h1 : ¬ (0 < s.invincibility) := not_lt.mpr hinv
    have h2 : ¬ (0 < s.shieldTimer) := not_lt.mpr hsh
    refine ⟨?_, ?_, ?_⟩
    · by_cases hl : s.lives - 1 ≤ 0 <;>
        simp [handlePlayerDamage, h1, h2, hdash, hgo, hl]
    · intro hl
      have hl2 : ¬ (s.lives - 1 ≤ 0) := not_le.mpr hl
      simp [handlePlayerDamage, h1, h2, hdash, hgo, hl2]
    · intro hl
      simp [handlePlayerDamage, h1, h2, hdash, hgo, hl]
  · intro h0 k
    rw [gameOverSignal, decide_eq_true_iff, gameOverStep_timer_iterate s k, h0]
    omega
  · refine ⟨rfl, rfl, rfl, rfl⟩

/-- C2 witness: a hit in a concrete vulnerable state with three lives
loses exactly one life and teleports the player to the last safe
position, while a hit in a concrete invincible state changes nothing. -/
theorem damage_and_game_over_witness :
    (handlePlayerDamage vulnerableState).lives = 2 ∧
    (handlePlayerDamage vulnerableState).player.position = vulnerableState.lastSafePos ∧
    handlePlayerDamage invincibleState = invincibleState := by
  have hv := (damage_and_game_over vulnerableState).2.1
    (by norm_num [vulnerableState]) (by norm_num [vulnerableState]) rfl rfl
  have hi := (damage_and_game_over invincibleState).1
    (Or.inl (by norm_num [invincibleState]))
  refine ⟨?_, ?_, hi⟩
  · rw [hv.1]
    norm_num [vulnerableState]
  · exact (hv.2.1 (by norm_num [vulnerableState])).1


/-- C3 counterexample: with the player merely invincible (no shield, no
dash) and the hurt boxes overlapping, the enemy is NOT destroyed — the
contact falls through to `handlePlayerDamage`, which no-ops — refuting
the claim that an invincible player destroys the touched enemy. -/
theorem enemy_contact_invincible_counterexample :
    0 < invincibleState.invincibility ∧
    invincibleState.shieldTimer = 0 ∧
    invincibleState.player.isDashing = false ∧
    overlappingSnake.isBroken = false ∧
    checkRectCollision invincibleState.player.box overlappingSnake.box true = true ∧
    (enemyDamageCheck invincibleState overlappingSnake).1.isBroken = false ∧
    (enemyDamageCheck invincibleState overlappingSnake).2 = invincibleState := by
  have hcol : checkRectCollision invincibleState.player.box overlappingSnake.box true = true := by
    norm_num [checkRectCollision, getHurtBounds, Player.box, Enemy.box,
      invincibleState, invinciblePlayer, overlappingSnake]
  have hdmg : handlePlayerDamage invincibleState = invincibleState := by
    simp [handlePlayerDamage, invincibleState]
  have hmain : enemyDamageCheck invincibleState overlappingSnake
      = (overlappingSnake, invincibleState) := by
    rw [enemyDamageCheck]
    rw [if_neg (by simp [overlappingSnake])]
    rw [if_neg (by simp [overlappingSnake])]
    rw [if_pos hcol]
    rw [if_neg (by simp [invincibleState, invinciblePlayer])]
    rw [hdmg]
  exact ⟨by norm_num [invincibleState], rfl, rfl, rfl, hcol,
    by rw [hmain]; rfl, by rw [hmain]⟩

/-- C3 (amended): on a hurt-box overlap with a live, non-hidden enemy:
if the player holds a shield or is dashing the enemy is destroyed (and a
dash kill additionally sets the camera shake); without shield and dash
the player damage routine runs and the enemy is left untouched — in
particular a merely-invincible player neither destroys the enemy nor
takes damage (the whole contact is a no-op). -/
theorem enemy_contact_resolution
    (st : GameState) (e : Enemy)
    (hb : e.isBroken = false)
    (hmole : ¬(e.subtype = .mole ∧ e.aiState = .hidden))
    (hcol : checkRectCollision st.player.box e.box true = true) :
    ((0 < st.shieldTimer ∨ st.player.isDashing = true) →
      (enemyDamageCheck st e).1.isBroken = true ∧
      (st.player.isDashing = true →
        (enemyDamageCheck st e).2.shakeTimer = 10 ∧
        (enemyDamageCheck st e).2.shakeStrength = 5)) ∧
    (st.shieldTimer ≤ 0 → st.player.isDashing = false →
      (enemyDamageCheck st e).1 = e ∧
      (enemyDamageCheck st e).2 = handlePlayerDamage st) ∧
    (st.shieldTimer ≤ 0 → st.player.isDashing = false → 0 < st.invincibility →
      enemyDamageCheck st e = (e, st)) := by
  refine ⟨?_, ?_, ?_⟩
  · intro h
    have hg : (0 < st.shieldTimer ∨ st.player.isDashing = true) := h
    constructor
    · rcases hg with hg | hg <;>
        simp [enemyDamageCheck, hb, hmole, hcol, hg]
    · intro hd
      simp [enemyDamageCheck, hb, hmole, hcol, hd]
  · intro hsh hd
    have h2 : ¬ (0 < st.shieldTimer) := not_lt.mpr hsh
    constructor <;> simp [enemyDamageCheck, hb, hmole, hcol, h2, hd]
  · intro hsh hd hinv
    have h2 : ¬ (0 < st.shieldTimer) := not_lt.mpr hsh
    have hdmg : handlePlayerDamage st = st := by
      simp [handlePlayerDamage, hinv]
    simp [enemyDamageCheck, hb, hmole, hcol, h2, hd, hdmg]

/-- C3 witness: a concrete dashing player destroys the overlapped enemy
and receives the camera-shake reward. -/
theorem enemy_contact_resolution_witness :
    (enemyDamageCheck dashingState overlappingSnake).1.isBroken = true ∧
    (enemyDamageCheck dashingState overlappingSnake).2.shakeTimer = 10 := by
  have h := enemy_contact_resolution dashingState overlappingSnake rfl
    (by simp [overlappingSnake])
    (by norm_num [checkRectCollision, getHurtBounds, Player.box, Enemy.box,
      dashingState, invinciblePlayer, overlappingSnake])
  exact ⟨(h.1 (Or.inr rfl)).1, ((h.1 (Or.inr rfl)).2 rfl).1⟩

/-- Helper: both snake branches advance the x position by exactly the
current horizontal velocity; nothing afterwards touches x. -/
theorem snakeUpdate_position_x (pp : Vec2) (rt : Bool) (e : Enemy) :
    (snakeUpdate pp rt e).position.x = e.position.x + e.velocity.x := by
  rcases hpr : e.patrolRange with _ | r <;>
    simp only [snakeUpdate, hpr] <;> split_ifs <;> rfl

/-- C1 counterexample: a charging (angry) snake inside its patrol range
`[0, 100]` at `x = 3` with velocity `-6` ends the AI update at `x = -3`,
outside the range — the full-variant snake AI does not clamp the
position into the patrol range. -/
theorem patrol_clamp_counterexample :
    angrySnakeAtEdge.aiState = .angry ∧
    angrySnakeAtEdge.patrolRange = some ⟨0, 100⟩ ∧
    0 ≤ angrySnakeAtEdge.position.x ∧ angrySnakeAtEdge.position.x ≤ 100 ∧
    ¬ (0 ≤ (snakeUpdate ⟨1000, 1000⟩ false angrySnakeAtEdge).position.x) := by
  refine ⟨rfl, rfl, by norm_num [angrySnakeAtEdge], by norm_num [angrySnakeAtEdge], ?_⟩
  rw [snakeUpdate_position_x]
  norm_num [angrySnakeAtEdge]

/-- C1 (amended): per patrol/charge update the full-variant snake can
overshoot its patrol range by at most its per-tick horizontal speed: from
a position inside `[min, max]` the updated position stays within
`[min − |vx|, max + |vx|]` (the velocity, not the position, is adjusted
at the bounds).  The simpler canvas variant does clamp: its patrol update
always ends inside `[min, max]`. -/
theorem patrol_range_overshoot_bound
    (pp : Vec2) (rt : Bool) (e : Enemy) (r : PatrolRange)
    (_hr : e.patrolRange = some r)
    (hmin : r.min ≤ e.position.x) (hmax : e.position.x ≤ r.max) :
    (r.min - |e.velocity.x| ≤ (snakeUpdate pp rt e).position.x ∧
     (snakeUpdate pp rt e).position.x ≤ r.max + |e.velocity.x|) ∧
    (∀ (e2 : Enemy) (r2 : PatrolRange), e2.subtype = .snake → e2.aiState = .patrol →
      e2.patrolRange = some r2 → r2.min ≤ r2.max →
      r2.min ≤ (snakeUpdateSimple e2).position.x ∧
      (snakeUpdateSimple e2).position.x ≤ r2.max) := by
  constructor
  · rw [snakeUpdate_position_x]
    have h1 := neg_abs_le e.velocity.x
    have h2 := le_abs_self e.velocity.x
    constructor <;> linarith
  · intro e2 r2 hs ha hpr hle
    simp only [snakeUpdateSimple, hs, ha, and_self, if_true, hpr, eq_self_iff_true, reduceIte]
    split_ifs with h1 h2 <;> simp only [] <;> constructor <;>
      first
        | rfl
        | exact hle
        | linarith


/-- C1 witness: a concrete patrol snake inside `[0, 100]` stays within the
speed-widened band after one update, and a concrete clamping instance of
the simpler variant. -/
theorem patrol_range_overshoot_bound_witness :
    ((0 : ℚ) - |(2 : ℚ)| ≤ (snakeUpdate ⟨1000, 1000⟩ false overlappingSnake).position.x ∧
     (snakeUpdate ⟨1000, 1000⟩ false overlappingSnake).position.x ≤ 100 + |(2 : ℚ)|) := by
  have h := patrol_range_overshoot_bound ⟨1000, 1000⟩ false overlappingSnake ⟨0, 100⟩
    rfl (by norm_num [overlappingSnake]) (by norm_num [overlappingSnake])
  exact h.1

/-- C7: per tick the dash cooldown is decremented whenever positive (or
reset by a fresh activation); while dashing the dash-duration timer is
decremented; outside a dash the duration timer is never positive (an
invariant preserved by the tick), so the decrement-when-positive policy
holds in every reachable state; and activation is gated purely by the
post-decrement cooldown — the gate never reads the duration timer. -/
theorem dash_timer_discipline (pressed : Bool) (s : DashState) :
    (1 < s.dashCooldown → (dashTick pressed s).dashCooldown = s.dashCooldown - 1) ∧
    (0 < s.dashCooldown →
      (dashTick pressed s).dashCooldown = s.dashCooldown - 1 ∨
      (dashTick pressed s).dashCooldown = DASH_COOLDOWN) ∧
    (s.isDashing = true → (dashTick pressed s).dashTimer = s.dashTimer - 1) ∧
    ((s.isDashing = false → s.dashTimer ≤ 0) →
      ((dashTick pressed s).isDashing = false → (dashTick pressed s).dashTimer ≤ 0)) ∧
    (s.isDashing = false →
      ((dashTick pressed s).isDashing = true ↔
        (pressed = true ∧
          (if 0 < s.dashCooldown then s.dashCooldown - 1 else s.dashCooldown) ≤ 0))) := by
  have hMaintCd : ∀ t : DashState, (dashMaintain t).dashCooldown = t.dashCooldown := by
    intro t
    simp only [dashMaintain]
    split_ifs <;> rfl
  have hMaintTimer : ∀ t : DashState, t.isDashing = true →
      (dashMaintain t).dashTimer = t.dashTimer - 1 := by
    intro t ht
    simp only [dashMaintain, ht, if_true]
    split_ifs <;> rfl
  have hMaintId : ∀ t : DashState, t.isDashing = false → dashMaintain t = t := by
    intro t ht
    simp only [dashMaintain, ht, Bool.false_eq_true, if_false]
  refine ⟨?_, ?_, ?_, ?_, ?_⟩
  · -- cooldown strictly above 1: plain decrement, activation stays blocked
    intro h
    have hcd : dashCooldownTick s = { s with dashCooldown := s.dashCooldown - 1 } := by
      simp only [dashCooldownTick, gt_iff_lt, if_pos (show 0 < s.dashCooldown by omega)]
    have hact : dashActivation pressed (dashCooldownTick s) = dashCooldownTick s := by
      rw [hcd, dashActivation, if_neg]
      rintro ⟨-, h2, -⟩
      simp only at h2
      omega
    rw [dashTick, hact, hMaintCd, hcd]
  · -- positive cooldown: decrement, or reload by a fresh activation
    intro h
    have hcd : dashCooldownTick s = { s with dashCooldown := s.dashCooldown - 1 } := by
      simp only [dashCooldownTick, gt_iff_lt, if_pos h]
    by_cases hact : (pressed = true ∧ (dashCooldownTick s).dashCooldown ≤ 0 ∧
        ¬(dashCooldownTick s).isDashing = true)
    · right
      rw [dashTick, dashActivation, if_pos hact, hMaintCd]
    · left
      rw [dashTick, dashActivation, if_neg hact, hMaintCd, hcd]
  · -- while dashing the duration timer decrements
    intro h
    have hact : dashActivation pressed (dashCooldownTick s) = dashCooldownTick s := by
      rw [dashActivation, if_neg]
      rintro ⟨-, -, h3⟩
      exact h3 (by simpa [dashCooldownTick] using h)
    rw [dashTick, hact]
    have : (dashCooldownTick s).isDashing = true := by simpa [dashCooldownTick] using h
    rw [hMaintTimer _ this]
    rfl
  · -- outside a dash the duration timer is never positive (preserved)
    intro hinv
    have hMaintDashNe : ∀ t : DashState, t.isDashing = true → ¬(t.dashTimer - 1 ≤ 0) →
        (dashMaintain t).isDashing = true := by
      intro t ht hgt
      simp [dashMaintain, ht, hgt]
    have hMaintFresh : ∀ t : DashState, t.isDashing = true → t.dashTimer = DASH_DURATION →
        (dashMaintain t).isDashing = true := by
      intro t ht htd
      refine hMaintDashNe t ht ?_
      rw [htd]
      norm_num [DASH_DURATION]
    by_cases hact : (pressed = true ∧ (dashCooldownTick s).dashCooldown ≤ 0 ∧
        ¬(dashCooldownTick s).isDashing = true)
    · -- fresh activation: the tick stays dashing with timer 11, vacuous
      intro habs
      exfalso
      rw [dashTick] at habs
      have h1 : (dashActivation pressed (dashCooldownTick s)).isDashing = true := by
        rw [dashActivation, if_pos hact]
      have h2 : (dashActivation pressed (dashCooldownTick s)).dashTimer = DASH_DURATION := by
        rw [dashActivation, if_pos hact]
      rw [hMaintFresh _ h1 h2] at habs
      simp at habs
    · rw [dashTick, dashActivation, if_neg hact]
      by_cases hd : (dashCooldownTick s).isDashing = true
      · by_cases ht : (dashCooldownTick s).dashTimer - 1 ≤ 0
        · intro h2
          rw [hMaintTimer _ hd]
          exact ht
        · intro habs
          exfalso
          rw [hMaintDashNe _ hd ht] at habs
          simp at habs
      · have hd2 : (dashCooldownTick s).isDashing = false := by
          simpa using hd
        rw [hMaintId _ hd2]
        intro h2
        exact hinv hd2
  · -- the activation gate reads only the post-decrement cooldown
    intro hnd
    have hd0 : (dashCooldownTick s).isDashing = false := hnd
    constructor
    · intro h
      by_cases hact : (pressed = true ∧ (dashCooldownTick s).dashCooldown ≤ 0 ∧
          ¬(dashCooldownTick s).isDashing = true)
      · exact ⟨hact.1, hact.2.1⟩
      · exfalso
        rw [dashTick, dashActivation, if_neg hact, hMaintId _ hd0] at h
        rw [hd0] at h
        exact Bool.false_ne_true h
    · rintro ⟨hp, hcife⟩
      have hact : (pressed = true ∧ (dashCooldownTick s).dashCooldown ≤ 0 ∧
          ¬(dashCooldownTick s).isDashing = true) :=
        ⟨hp, hcife, by simp [hd0]⟩
      rw [dashTick, dashActivation, if_pos hact]
      simp [dashMaintain, DASH_DURATION]

/-- C7 witness: from an idle state with zero cooldown, a dash press
activates the dash; and a concrete positive cooldown of 5 decrements
to 4 on the tick. -/
theorem dash_timer_discipline_witness :
    (dashTick true
      { isDashing := false, facingRight := true, vx := 0, vy := 0,
        dashTimer := 0, dashCooldown := 0, shakeTimer := 0,
        shakeStrength := 0 }).isDashing = true ∧
    (dashTick false
      { isDashing := false, facingRight := true, vx := 0, vy := 0,
        dashTimer := 0, dashCooldown := 5, shakeTimer := 0,
        shakeStrength := 0 }).dashCooldown = 4 := by
  constructor
  · exact ((dash_timer_discipline true
      { isDashing := false, facingRight := true, vx := 0, vy := 0,
        dashTimer := 0, dashCooldown := 0, shakeTimer := 0,
        shakeStrength := 0 }).2.2.2.2 rfl).mpr ⟨rfl, by norm_num⟩
  · have h := (dash_timer_discipline false
      { isDashing := false, facingRight := true, vx := 0, vy := 0,
        dashTimer := 0, dashCooldown := 5, shakeTimer := 0,
        shakeStrength := 0 }).1 (by norm_num)
    rw [h]
    decide


/-- Helper: a standing tick on an unbroken crumble platform decrements its
timer by exactly one, breaking it exactly when the timer reaches zero. -/
theorem crumbleStandTick_eq (obj : EnvObj)
    (hsub : obj.subtype = .crumble)
    (hb : obj.isBroken = false)
    (ht : 1 ≤ obj.timer)
    (hw : 0 < obj.size.width)
    (hh : 0 < obj.size.height) :
    crumbleStandTick obj
      = { obj with timer := obj.timer - 1, isBroken := decide (obj.timer - 1 ≤ 0) } := by
  have hcol : checkRectCollision (standingPlayer obj).box obj.box false = true := by
    simp only [checkRectCollision, Bool.false_eq_true, if_false, getBounds, Player.box,
      EnvObj.box, standingPlayer, decide_eq_true_eq]
    refine ⟨?_, ?_, ?_, ?_⟩ <;> norm_num [PLAYER_WIDTH, PLAYER_HEIGHT, GRAVITY] <;> linarith
  have hland : (standingPlayer obj).position.y - (standingPlayer obj).velocity.y
      + (standingPlayer obj).size.height ≤ obj.position.y := by
    norm_num [standingPlayer, PLAYER_HEIGHT, GRAVITY]
  have hvy : (0 : ℚ) ≤ (standingPlayer obj).velocity.y := by
    norm_num [standingPlayer, GRAVITY]
  have htz : ¬ (obj.timer = 0) := by omega
  rw [crumbleStandTick, checkEnvironmentCollision]
  rw [if_neg (by simp [hb])]
  rw [if_pos hcol]
  rw [if_pos ⟨by simpa [getBounds, EnvObj.box] using hland, by simpa using hvy⟩]
  rw [if_neg (by simp [hsub])]
  rw [if_pos hsub]
  rw [if_neg htz]
  by_cases hle : obj.timer - 1 ≤ 0
  · rw [if_pos hle]
    simp [hle]
  · rw [if_neg hle]
    simp [hle, hb]

/-- Helper: while strictly more standing ticks remain than have elapsed,
iterated standing ticks only count the timer down, never breaking. -/
theorem crumbleStandTick_iterate :
    ∀ (k : ℕ) (obj : EnvObj), obj.subtype = .crumble → obj.isBroken = false →
      0 < obj.size.width → 0 < obj.size.height → (k : ℤ) < obj.timer →
      (crumbleStandTick^[k]) obj = { obj with timer := obj.timer - k } := by
  intro k
  induction k with
  | zero =>
      intro obj hsub hb hw hh htk
      simp
  | succ k ih =>
      intro obj hsub hb hw hh htk
      rw [Function.iterate_succ_apply]
      have hstep := crumbleStandTick_eq obj hsub hb (by omega) hw hh
      have hnb : decide (obj.timer - 1 ≤ 0) = false := by
        simp only [decide_eq_false_iff_not, not_le]
        push_cast at htk
        omega
      rw [hnb] at hstep
      have hb2 : ({ obj with timer := obj.timer - 1, isBroken := false } : EnvObj).isBroken
          = false := rfl
      have := ih { obj with timer := obj.timer - 1, isBroken := false } hsub hb2 hw hh
        (by push_cast at htk ⊢; omega)
      rw [hstep, this]
      rw [← hb]
      have harith : obj.timer - 1 - (k : ℤ) = obj.timer - ((k : ℕ) + 1 : ℕ) := by
        push_cast
        ring
      rw [harith]

/-- C4: a crumble platform seeded with a countdown of N ≥ 1 standing
ticks breaks after exactly N standing ticks and never earlier: for every
k < N the platform is still unbroken with timer N − k, at the N-th
standing tick `isBroken` becomes true, and ticks without player contact
leave the platform untouched (so decay accumulates across non-consecutive
standing ticks). -/
theorem crumble_breaks_after_exactly_N
    (obj : EnvObj) (N : ℕ)
    (hsub : obj.subtype = .crumble)
    (hb : obj.isBroken = false)
    (htimer : obj.timer = (N : ℤ))
    (hN : 1 ≤ N)
    (hw : 0 < obj.size.width)
    (hh : 0 < obj.size.height) :
    (∀ k : ℕ, k < N → ((crumbleStandTick^[k]) obj).isBroken = false ∧
        ((crumbleStandTick^[k]) obj).timer = (N : ℤ) - k) ∧
    ((crumbleStandTick^[N]) obj).isBroken = true ∧
    (∀ (p : Player) (cs : Bool) (so : ℚ),
      checkRectCollision p.box obj.box false = false →
      (checkEnvironmentCollision p obj cs so).obj = obj) := by
  refine ⟨?_, ?_, ?_⟩
  · intro k hk
    have h := crumbleStandTick_iterate k obj hsub hb hw hh (by rw [htimer]; omega)
    rw [h, htimer]
    exact ⟨hb, rfl⟩
  · have h1 := crumbleStandTick_iterate (N - 1) obj hsub hb hw hh
      (by rw [htimer]; omega)
    have h2 : obj.timer - ((N - 1 : ℕ) : ℤ) = 1 := by
      rw [htimer]
      omega
    rw [h2] at h1
    have hNsplit : N = (N - 1) + 1 := by omega
    rw [hNsplit, Function.iterate_succ_apply', h1]
    rw [crumbleStandTick_eq { obj with timer := 1 } hsub hb le_rfl hw hh]
    show decide ((1 : ℤ) - 1 ≤ 0) = true
    decide
  · intro p cs so hnc
    simp [checkEnvironmentCollision, hb, hnc]

/-- C4 witness: the concrete loader-seeded crumble platform (timer 30) is
still intact after 29 standing ticks and broken at the 30th. -/
theorem crumble_breaks_after_exactly_N_witness :
    ((crumbleStandTick^[29]) crumblePlatform).isBroken = false ∧
    ((crumbleStandTick^[30]) crumblePlatform).isBroken = true := by
  have h := crumble_breaks_after_exactly_N crumblePlatform 30 rfl rfl
    (by norm_num [crumblePlatform, CRUMBLE_TIME]) (by norm_num)
    (by norm_num [crumblePlatform]) (by norm_num [crumblePlatform])
  exact ⟨(h.1 29 (by norm_num)).1, h.2.1⟩


/-- Helper: the running maximum never drops below its initial value. -/
theorem foldl_max_le_init (ps : List PlatformDef) :
    ∀ a : ℚ, a ≤ ps.foldl (fun acc q => max acc q.y) a := by
  induction ps with
  | nil =>
      intro a
      simp
  | cons q ps ih =>
      intro a
      simp only [List.foldl_cons]
      exact le_trans (le_max_left a q.y) (ih (max a q.y))

/-- Helper: the running maximum dominates every member's y. -/
theorem mem_y_le_foldl_max (ps : List PlatformDef) :
    ∀ (a : ℚ) (p : PlatformDef), p ∈ ps → p.y ≤ ps.foldl (fun acc q => max acc q.y) a := by
  induction ps with
  | nil =>
      intro a p hp
      simp at hp
  | cons q ps ih =>
      intro a p hp
      simp only [List.foldl_cons]
      rcases List.mem_cons.mp hp with h | h
      · subst h
        exact le_trans (le_max_right a p.y) (foldl_max_le_init ps _)
      · exact ih _ p h

/-- Helper: the running maximum is the initial value or some member's y. -/
theorem foldl_max_attained (ps : List PlatformDef) :
    ∀ a : ℚ, ps.foldl (fun acc q => max acc q.y) a = a ∨
      ∃ p ∈ ps, ps.foldl (fun acc q => max acc q.y) a = p.y := by
  induction ps with
  | nil =>
      intro a
      left
      rfl
  | cons q ps ih =>
      intro a
      simp only [List.foldl_cons]
      rcases ih (max a q.y) with h | ⟨p, hp, h⟩
      · rcases le_total a q.y with hle | hle
        · right
          exact ⟨q, List.mem_cons_self q ps, by rw [h, max_eq_right hle]⟩
        · left
          rw [h, max_eq_left hle]
      · right
        exact ⟨p, List.mem_cons_of_mem q hp, h⟩

/-- C5: the death plane sits a fixed margin of 400 below the lowest
platform y (the largest y value, y growing downward), falling back to the
viewport height plus the margin when no platforms exist; crossing it
while the terminal sequence is not active forces lives to zero and starts
the terminal sequence (with the visual death hop); a crossing while the
sequence is already active changes nothing; and the terminal tick applies
no collision response (horizontal position and velocity are frozen). -/
theorem death_plane_behaviour
    (platforms : List PlatformDef) (height : ℚ) (st : GameState) :
    (deathY [] height = height + 400) ∧
    (platforms ≠ [] →
      (∀ p ∈ platforms, p.y + 400 ≤ deathY platforms height) ∧
      (∃ p ∈ platforms, deathY platforms height = p.y + 400)) ∧
    (st.player.position.y > deathY platforms height → st.isGameOver = false →
      (deathFloorCheck (deathY platforms height) st).lives = 0 ∧
      (deathFloorCheck (deathY platforms height) st).isGameOver = true ∧
      (deathFloorCheck (deathY platforms height) st).player.velocity.y = -15) ∧
    (st.isGameOver = true → deathFloorCheck (deathY platforms height) st = st) ∧
    ((gameOverStep st).player.position.x = st.player.position.x ∧
     (gameOverStep st).player.velocity.x = st.player.velocity.x) := by
  refine ⟨rfl, ?_, ?_, ?_, rfl, rfl⟩
  · intro hne
    match platforms with
    | p :: ps =>
      constructor
      · intro x hx
        rcases List.mem_cons.mp hx with h | h
        · subst h
          have := foldl_max_le_init ps x.y
          simp only [deathY, lowestY]
          linarith
        · have := mem_y_le_foldl_max ps p.y x h
          simp only [deathY, lowestY]
          linarith
      · rcases foldl_max_attained ps p.y with h | ⟨q, hq, h⟩
        · exact ⟨p, List.mem_cons_self p ps, by simp only [deathY, lowestY]; rw [h]⟩
        · exact ⟨q, List.mem_cons_of_mem p hq, by simp only [deathY, lowestY]; rw [h]⟩
  · intro hgt hgo
    refine ⟨?_, ?_, ?_⟩ <;> simp [deathFloorCheck, hgt, hgo]
  · intro hgo
    rw [deathFloorCheck]
    split_ifs with h1
    · rfl
    · rfl

/-- C5 witness: with one platform at y = 500 and viewport height 600 the
death plane is 900; a concrete player at y = 1000 outside a terminal
sequence is forced to zero lives and the terminal sequence starts. -/
theorem death_plane_behaviour_witness :
    (deathFloorCheck (deathY [⟨0, 500, 200, 20⟩] 600) vulnerableState2).lives = 0 ∧
    (deathFloorCheck (deathY [⟨0, 500, 200, 20⟩] 600) vulnerableState2).isGameOver = true := by
  have h := (death_plane_behaviour [⟨0, 500, 200, 20⟩] 600 vulnerableState2).2.2.1
    (by norm_num [deathY, lowestY, vulnerableState2, invinciblePlayer]) rfl
  exact ⟨h.1, h.2.1⟩

end PrairieDogRun
